import Mathlib

/-!
# Verification of the UDisplay universal display driver

Shallow embedding of the core logic of `uDisplay.cpp`,
`uDisplay_graphics.cpp`, `uDisplay_spi_comm.cpp`, `uDisplay_spi_panel.cpp`
and `uDisplay_epd_panel.cpp` (Tasmota universal display driver), together
with theorems settling the specification claims about:

* the post-parse derivation of the e-paper mode (`ep_mode`),
* the encoded command-stream interpreter (`send_spi_cmds`, `send_spi_icmds`),
* the e-paper refresh machine (`DisplayInit`, `Updateframe_EPD`),
* rotation and reported width/height (`setRotation`),
* RGB565 ↔ RGB666 color conversion (`WriteColor`),
* the address-window contract (`setAddrWindow`),
* driver construction (`Init`),
* e-paper framebuffer pixel safety (`drawAbsolutePixel` / `drawPixel`).

Machine integers are modelled as `Nat` (with explicit masking where the
C code truncates); signed C `int`/`int16_t` coordinates are modelled as
`Int` where sign checks matter.
-/

namespace UDisp

/-! ## Post-parse e-paper mode derivation (uDisplay.cpp lines 713-739)

After the descriptor parse loop, `uDisplay::uDisplay` runs three
sequential conditional assignments to `ep_mode` (which starts at 0):

```
if (lutfsize && lutpsize) ep_mode = 1;                       // 2 table mode
if (lut_cnt[0] > 0 && lut_cnt[1] == lut_cnt[2]
    && lut_cnt[1] == lut_cnt[3] && lut_cnt[1] == lut_cnt[4]) ep_mode = 2;  // 5 table
if ((epcoffs_full || epcoffs_part) && !(lutfsize || lutpsize)) ep_mode = 3;
```
-/

/-- The accumulator fields of the descriptor parse that feed the
post-parse `ep_mode` decision. `lutfsize`/`lutpsize` are the byte counts
accumulated for the full/partial LUTs, `lut_cnt0`..`lut_cnt4` the counts
for the five indexed LUT tables, `epcoffs_full`/`epcoffs_part` the
offsets of the full/partial command tables inside `dsp_cmds`. -/
structure ParseAccum where
  lutfsize : Nat
  lutpsize : Nat
  lut_cnt0 : Nat
  lut_cnt1 : Nat
  lut_cnt2 : Nat
  lut_cnt3 : Nat
  lut_cnt4 : Nat
  epcoffs_full : Nat
  epcoffs_part : Nat
  deriving DecidableEq, Repr

/-- The post-parse derivation of `ep_mode`, transcribed from the three
sequential conditional assignments at the end of `uDisplay::uDisplay`
(uDisplay.cpp lines 713-739); `ep_mode` is initialised to 0. -/
def derive_ep_mode (s : ParseAccum) : Nat :=
  let m := 0
  let m := if s.lutfsize ≠ 0 ∧ s.lutpsize ≠ 0 then 1 else m
  let m := if s.lut_cnt0 > 0 ∧ s.lut_cnt1 = s.lut_cnt2 ∧ s.lut_cnt1 = s.lut_cnt3 ∧
      s.lut_cnt1 = s.lut_cnt4 then 2 else m
  let m := if (s.epcoffs_full ≠ 0 ∨ s.epcoffs_part ≠ 0) ∧
      ¬(s.lutfsize ≠ 0 ∨ s.lutpsize ≠ 0) then 3 else m
  m

/-- The spec's decision table for the derived e-paper mode, read as a
prioritized decision list in the order the spec presents the rows, later
applicable rows overriding earlier ones (the spec states the 5-table row
overrides a prior 2-table result):
row 1: both full and partial LUT byte counts nonzero → 2-table (1);
row 2: the five-table counts are present (first table count nonzero)
with tables 2-5 counts all equal → 5-table (2);
row 3: a full or partial command-table offset present while no
full/partial LUT bytes are present → command-sequence (3);
otherwise → not an e-paper device (0). -/
def ep_mode_decision_table (s : ParseAccum) : Nat :=
  if (s.epcoffs_full ≠ 0 ∨ s.epcoffs_part ≠ 0) ∧ s.lutfsize = 0 ∧ s.lutpsize = 0 then 3
  else if s.lut_cnt0 > 0 ∧ s.lut_cnt1 = s.lut_cnt2 ∧ s.lut_cnt1 = s.lut_cnt3 ∧
      s.lut_cnt1 = s.lut_cnt4 then 2
  else if s.lutfsize ≠ 0 ∧ s.lutpsize ≠ 0 then 1
  else 0

/-- C1: after descriptor parsing completes, the derived e-paper mode
follows the spec's decision table: 2-table (1) when both full and partial
LUT byte counts are nonzero, 5-table (2) when the five-table counts are
present with tables 2-5 counts all equal (overriding a 2-table result),
command-sequence (3) when a full or partial command-table offset is
present and no full/partial LUT bytes are, and not-e-paper (0)
otherwise. -/
theorem c1_ep_mode_decision_table (s : ParseAccum) :
    derive_ep_mode s = ep_mode_decision_table s := by
  unfold derive_ep_mode ep_mode_decision_table
  split_ifs <;> tauto

/-! ## RGB565 → RGB666 conversion (uDisplay_spi_comm.cpp `WriteColor`) -/

/-- The red channel sent by `uDisplay::WriteColor` in 18-bit color mode:
`r = (color & 0xF800) >> 11; r = r * 255 / 31;`. -/
def writeColor18_r (color : Nat) : Nat := ((color &&& 0xF800) >>> 11) * 255 / 31

/-- The green channel sent by `uDisplay::WriteColor` in 18-bit color mode:
`g = (color & 0x07E0) >> 5; g = g * 255 / 63;`. -/
def writeColor18_g (color : Nat) : Nat := ((color &&& 0x07E0) >>> 5) * 255 / 63

/-- The blue channel sent by `uDisplay::WriteColor` in 18-bit color mode:
`b = color & 0x001F; b = b * 255 / 31;`. -/
def writeColor18_b (color : Nat) : Nat := (color &&& 0x001F) * 255 / 31

/-- The inverse linear rescale named by the claim for a 5-bit component:
`v8 * 31 / 255` (integer division). -/
def inv_rescale5 (v : Nat) : Nat := v * 31 / 255

/-- The inverse linear rescale named by the claim for a 6-bit component:
`v8 * 63 / 255` (integer division). -/
def inv_rescale6 (v : Nat) : Nat := v * 63 / 255

/-- The 5-bit red component of an RGB565 value, as extracted by
`WriteColor`: `(color & 0xF800) >> 11`. -/
def red5 (color : Nat) : Nat := (color &&& 0xF800) >>> 11

/-- The 6-bit green component of an RGB565 value, as extracted by
`WriteColor`: `(color & 0x07E0) >> 5`. -/
def green6 (color : Nat) : Nat := (color &&& 0x07E0) >>> 5

/-- The 5-bit blue component of an RGB565 value, as extracted by
`WriteColor`: `color & 0x001F`. -/
def blue5 (color : Nat) : Nat := color &&& 0x001F

theorem roundtrip_5bit_hi : ∀ r < 32, (r * 255 / 31) >>> 3 = r := by decide

theorem roundtrip_6bit_hi : ∀ g < 64, (g * 255 / 63) >>> 2 = g := by decide

theorem red5_lt (color : Nat) : red5 color < 32 := by
  have h1 : color &&& 0xF800 ≤ 0xF800 := Nat.and_le_right
  have h2 : (color &&& 0xF800) >>> 11 ≤ 0xF800 >>> 11 := by
    simpa [Nat.shiftRight_eq_div_pow] using Nat.div_le_div_right (c := 2 ^ 11) h1
  exact Nat.lt_of_le_of_lt h2 (by decide)

theorem green6_lt (color : Nat) : green6 color < 64 := by
  have h1 : color &&& 0x07E0 ≤ 0x07E0 := Nat.and_le_right
  have h2 : (color &&& 0x07E0) >>> 5 ≤ 0x07E0 >>> 5 := by
    simpa [Nat.shiftRight_eq_div_pow] using Nat.div_le_div_right (c := 2 ^ 5) h1
  exact Nat.lt_of_le_of_lt h2 (by decide)

theorem blue5_lt (color : Nat) : blue5 color < 32 := by
  have h1 : color &&& 0x001F ≤ 0x001F := Nat.and_le_right
  exact Nat.lt_of_le_of_lt h1 (by decide)

/-- C5 counterexample: the claim's integer inverse linear rescale
`r5 = r8 * 31 / 255` does not recover the red component of the RGB565
value 0x0800 (red component 1): `WriteColor` sends `1 * 255 / 31 = 8`,
and `8 * 31 / 255 = 0 ≠ 1`. -/
theorem c5_counterexample :
    inv_rescale5 (writeColor18_r 0x0800) ≠ red5 0x0800 := by decide

/-- C5 amended: for every RGB565 color value, `WriteColor`'s integer
linear rescale to 8 bits (`r*255/31`, `g*255/63`, `b*255/31`) leaves the
most significant 5/6/5 bits equal to the original components: dropping
the low-order bits (`>>> 3` for the 5-bit channels, `>>> 2` for green)
recovers the original 5-bit red, 6-bit green and 5-bit blue components
unchanged (the plain `*31/255` / `*63/255` integer inverse floors small
components to 0). -/
theorem c5_color_msb_roundtrip (color : Nat) :
    (writeColor18_r color) >>> 3 = red5 color ∧
    (writeColor18_g color) >>> 2 = green6 color ∧
    (writeColor18_b color) >>> 3 = blue5 color := by
  refine ⟨?_, ?_, ?_⟩
  · exact roundtrip_5bit_hi _ (red5_lt color)
  · exact roundtrip_6bit_hi _ (green6_lt color)
  · exact roundtrip_5bit_hi _ (blue5_lt color)

/-! ## The command-stream interpreter (uDisplay.cpp `send_spi_cmds`,
`send_spi_icmds`)

The interpreter walks `dsp_cmds` from a starting offset. Per record it
asserts chip-select, reads an opcode byte and a flags byte; in the
ordinary path it then consumes `flags & 0x1F` argument bytes (the raw
init variant `send_spi_icmds` consumes `flags & 0x7F`), deasserts
chip-select and, when flags bit 7 is set, issues `delay_arg(flags)`.
When `ep_mode` is 1 or 3 and the opcode is ≥ 0x60, the record is instead
an e-paper pseudo-opcode handled inline. The transport and panel calls
are recorded as an event trace. -/

/-- One observable action of the interpreter / refresh machine:
transport calls (`csLow`, `csHigh`, `ulcd_command`, `ulcd_data8`,
`delay_arg`), and the panel calls made by the e-paper pseudo-opcodes and
by `Updateframe_EPD` / `DisplayInit`. -/
inductive Ev where
  | csLow
  | csHigh
  | beginTr
  | endTr
  | cmd (b : Nat)
  | data8 (b : Nat)
  | data16 (v : Nat)
  | data32 (v : Nat)
  | pushPix (ws : List Nat)
  | delayArg (flags : Nat)
  | resetPin (t : Nat)
  | setLutFull
  | setLutPart
  | delaySync (ms : Nat)
  | setMemArea
  | setMemPtr
  | sendData
  | clrFrame (b : Nat)
  | sendFrame
  | setFrameMem
  | displayFrame
  | clearFrame42
  | displayFrame42
  | basicInit
  deriving DecidableEq, Repr

/-- The configuration fields of `uDisplay` that the command interpreter
and the e-paper refresh machine read: the raw command buffer
`dsp_cmds`, the derived `ep_mode`, the all-commands flag, the last
reset-reason code (`ESP_ResetInfoReason()`), the LUT byte counts, the
full/partial command-table offsets and counts, and the LUT hold times. -/
structure DispConf where
  dsp_cmds : List Nat
  ep_mode : Nat
  allcmd_mode : Bool
  resetReason : Nat
  lutfsize : Nat
  lutpsize : Nat
  epcoffs_full : Nat
  epc_full_cnt : Nat
  epcoffs_part : Nat
  epc_part_cnt : Nat
  lutftime : Nat
  lutptime : Nat
  deriving DecidableEq, Repr

/-- Reading a byte of `dsp_cmds` (byte values are 0..255; positions past
the buffer read 0). -/
def byteAt (c : DispConf) (i : Nat) : Nat := c.dsp_cmds.getD i 0

/-- Modelled from the spec: the numeric values of the framework's
`DISPLAY_INIT_MODE` constant come from a header that is not among the
sources; `uDisplay.cpp` only compares `p` and `ep_update_mode` against
these constants, so only their distinctness matters. `initModeNone` is
the "plain init" mode (`DISPLAY_INIT_MODE`). -/
def initModeNone : Nat := 0

/-- Modelled from the spec: the partial-refresh update mode
(`DISPLAY_INIT_PARTIAL`), see `initModeNone`. -/
def initModePart : Nat := 1

/-- Modelled from the spec: the full-refresh update mode
(`DISPLAY_INIT_FULL`), see `initModeNone`. -/
def initModeFull : Nat := 2

/-- The result of interpreting one record of `send_spi_cmds`: the
events emitted, the offset and index after the record, the (possibly
updated) `ep_update_mode`, and whether a `BREAK_RR_*` pseudo-opcode
aborted stream processing (`goto exit`). -/
structure StepOut where
  evs : List Ev
  off : Nat
  idx : Nat
  mode : Nat
  aborted : Bool
  deriving DecidableEq, Repr

/-- One record of `uDisplay::send_spi_cmds` (uDisplay.cpp lines
859-975), transcribed from the loop body: `csLow`, read opcode, then
either the e-paper pseudo-opcode dispatch (when `ep_mode` is 1 or 3 and
the opcode is ≥ `EP_RESET` = 0x60) or the ordinary
command/flags/argument path. -/
def send_spi_cmds_step (c : DispConf) (off idx mode : Nat) : StepOut :=
  let iob := byteAt c off
  if (c.ep_mode = 1 ∨ c.ep_mode = 3) ∧ 0x60 ≤ iob then
    let args := byteAt c (off + 1)
    let off2 := off + 2
    let idx2 := idx + 2
    let out :=
      if iob = 0x60 then
        if args &&& 1 ≠ 0 then
          StepOut.mk [Ev.resetPin (byteAt c off2)] (off2 + 1) (idx2 + 1) mode false
        else StepOut.mk [Ev.resetPin iob] off2 idx2 mode false
      else if iob = 0x61 then StepOut.mk [Ev.setLutFull] off2 idx2 initModeFull false
      else if iob = 0x62 then StepOut.mk [Ev.setLutPart] off2 idx2 initModePart false
      else if iob = 0x63 then
        if args &&& 1 ≠ 0 then
          StepOut.mk [Ev.delaySync (byteAt c off2 * 10)] (off2 + 1) (idx2 + 1) mode false
        else StepOut.mk [Ev.delaySync (iob * 10)] off2 idx2 mode false
      else if iob = 0x64 then StepOut.mk [Ev.setMemArea] off2 idx2 mode false
      else if iob = 0x65 then StepOut.mk [Ev.setMemPtr] off2 idx2 mode false
      else if iob = 0x66 then StepOut.mk [Ev.sendData] off2 idx2 mode false
      else if iob = 0x67 then StepOut.mk [Ev.clrFrame 0xFF] off2 idx2 mode false
      else if iob = 0x68 then StepOut.mk [Ev.sendFrame] off2 idx2 mode false
      else if iob = 0x69 then
        if args &&& 1 ≠ 0 then
          if byteAt c off2 = c.resetReason then
            StepOut.mk [] (off2 + 1) (idx2 + 1) initModePart true
          else StepOut.mk [] (off2 + 1) (idx2 + 1) mode false
        else StepOut.mk [] off2 idx2 mode false
      else if iob = 0x6a then
        if args &&& 1 ≠ 0 then
          if byteAt c off2 ≠ c.resetReason then
            StepOut.mk [] (off2 + 1) (idx2 + 1) initModePart true
          else StepOut.mk [] (off2 + 1) (idx2 + 1) mode false
        else StepOut.mk [] off2 idx2 mode false
      else StepOut.mk [] off2 idx2 mode false
    if out.aborted then { out with evs := Ev.csLow :: out.evs }
    else
      { out with
        evs := Ev.csLow :: (out.evs ++
          (if args &&& 0x80 ≠ 0 then [Ev.delayArg args] else [])) }
  else
    let args := byteAt c (off + 1)
    let n := args &&& 0x1f
    let argEvs := (List.range n).map fun i =>
      let b := byteAt c (off + 2 + i)
      if c.allcmd_mode then Ev.cmd b else Ev.data8 b
    StepOut.mk
      ([Ev.csLow, Ev.cmd iob] ++ argEvs ++ [Ev.csHigh] ++
        (if args &&& 0x80 ≠ 0 then [Ev.delayArg args] else []))
      (off + 2 + n) (idx + 2 + n) mode false

/-- The `while (1)` loop of `uDisplay::send_spi_cmds`: interpret a
record, stop if it aborted (`goto exit`) or if the running index has
reached `cmd_size` (the loop body always runs at least once). The fuel
argument dominates the number of records; each record advances the
index by at least 2. -/
def send_spi_cmds_loop (c : DispConf) (fuel off idx mode cmd_size : Nat) :
    List Ev × Nat × Bool :=
  match fuel with
  | 0 => ([], mode, false)
  | fuel + 1 =>
    let st := send_spi_cmds_step c off idx mode
    if st.aborted then (st.evs, st.mode, true)
    else if cmd_size ≤ st.idx then (st.evs, st.mode, false)
    else
      let rest := send_spi_cmds_loop c fuel st.off st.idx st.mode cmd_size
      (st.evs ++ rest.1, rest.2.1, rest.2.2)

/-- `uDisplay::send_spi_cmds(cmd_offset, cmd_size)`: run the record loop
starting at `cmd_offset` with index 0 and the current `ep_update_mode`,
returning the emitted events, the final `ep_update_mode`, and whether a
`BREAK_RR_*` pseudo-opcode aborted the stream. -/
def send_spi_cmds (c : DispConf) (cmd_offset cmd_size mode : Nat) :
    List Ev × Nat × Bool :=
  send_spi_cmds_loop c (cmd_size + 1) cmd_offset 0 mode cmd_size

/-- One record of `uDisplay::send_spi_icmds` (uDisplay.cpp lines
814-851), the raw-init variant: `csLow`, opcode, flags, `flags & 0x7F`
data bytes, `csHigh`, then `delay_arg(flags)` when bit 7 is set.
Returns the events and the offset after the record (the running index
advances in step with the offset). -/
def send_spi_icmds_step (c : DispConf) (off : Nat) : List Ev × Nat :=
  let iob := byteAt c off
  let args := byteAt c (off + 1)
  let n := args &&& 0x7f
  let argEvs := (List.range n).map fun i => Ev.data8 (byteAt c (off + 2 + i))
  ([Ev.csLow, Ev.cmd iob] ++ argEvs ++ [Ev.csHigh] ++
      (if args &&& 0x80 ≠ 0 then [Ev.delayArg args] else []),
    off + 2 + n)

/-! ## The e-paper refresh machine (uDisplay.cpp `Updateframe_EPD`,
`DisplayInit`) -/

/-- `uDisplay::Updateframe_EPD` (uDisplay.cpp lines 1213-1236): for
`ep_mode` 1 or 3, dispatch on `ep_update_mode`: partial → run the
partial command table (when nonempty), full → run the full command
table (when nonempty), any other mode → push the framebuffer and
trigger a display update; other `ep_mode`s use the 5-table
`displayFrame_42` path. Returns the events and the resulting
`ep_update_mode` (the interpreted table may change it). -/
def Updateframe_EPD (c : DispConf) (mode : Nat) : List Ev × Nat :=
  if c.ep_mode = 1 ∨ c.ep_mode = 3 then
    if mode = initModePart then
      if c.epc_part_cnt ≠ 0 then
        let r := send_spi_cmds c c.epcoffs_part c.epc_part_cnt mode
        (r.1, r.2.1)
      else ([], mode)
    else if mode = initModeFull then
      if c.epc_full_cnt ≠ 0 then
        let r := send_spi_cmds c c.epcoffs_full c.epc_full_cnt mode
        (r.1, r.2.1)
      else ([], mode)
    else ([Ev.setFrameMem, Ev.displayFrame], mode)
  else ([Ev.displayFrame42], mode)

/-- `uDisplay::DisplayInit(p, size, rot, font)` (uDisplay.cpp lines
1238-1289), restricted to the state it changes that matters here: for a
non-plain mode `p` on an e-paper device it stores `ep_update_mode = p`;
in the partial branch it uploads the partial LUT and refreshes only when
`lutpsize` is nonzero; in the full branch it uploads the full LUT and
refreshes only when `lutfsize` is nonzero, runs the 5-table clear for
`ep_mode` 2, and always holds for `lutftime * 10`. The non-e-paper
branch does the plain text/rotation setup (`basicInit`). Returns the
events and the resulting `ep_update_mode`. -/
def DisplayInit (c : DispConf) (p mode : Nat) : List Ev × Nat :=
  if p ≠ initModeNone ∧ c.ep_mode ≠ 0 then
    let mode := p
    if p = initModePart then
      if c.lutpsize ≠ 0 then
        let r := Updateframe_EPD c mode
        (Ev.setLutPart :: (r.1 ++ [Ev.delaySync (c.lutptime * 10)]), r.2)
      else ([], mode)
    else if p = initModeFull then
      let r1 := if c.lutfsize ≠ 0 then
          let r := Updateframe_EPD c mode
          (Ev.setLutFull :: r.1, r.2)
        else ([], mode)
      let evs2 := if c.ep_mode = 2 then [Ev.clearFrame42, Ev.displayFrame42] else []
      (r1.1 ++ evs2 ++ [Ev.delaySync (c.lutftime * 10)], r1.2)
    else ([], mode)
  else ([Ev.basicInit], mode)

/-- A non-e-paper configuration whose command buffer holds the single
record `[0x2A][0x04][0x01][0x02][0x03][0x04]` (column-address command
with 4 argument bytes, no delay flag). -/
def ex2A : DispConf :=
  { dsp_cmds := [0x2A, 0x04, 0x01, 0x02, 0x03, 0x04]
    ep_mode := 0, allcmd_mode := false, resetReason := 1
    lutfsize := 0, lutpsize := 0
    epcoffs_full := 0, epc_full_cnt := 0
    epcoffs_part := 0, epc_part_cnt := 0
    lutftime := 350, lutptime := 35 }

/-- A non-e-paper configuration whose command buffer holds the single
record `[0x11][0x80]` (sleep-out command, no arguments, delay flag
set). -/
def ex11 : DispConf :=
  { dsp_cmds := [0x11, 0x80]
    ep_mode := 0, allcmd_mode := false, resetReason := 1
    lutfsize := 0, lutpsize := 0
    epcoffs_full := 0, epc_full_cnt := 0
    epcoffs_part := 0, epc_part_cnt := 0
    lutftime := 350, lutptime := 35 }

/-- C2: in the ordinary (non-pseudo-opcode) path, after the opcode and
flags bytes the interpreter consumes exactly `flags & 0x1F` argument
bytes (the raw-init variant `send_spi_icmds` consumes `flags & 0x7F`),
and it issues a delay after the record iff flags bit 7 is set; in
particular for `[0x2A][0x04][0x01][0x02][0x03][0x04]` exactly 4 argument
bytes are consumed with no delay, and for `[0x11][0x80]` zero argument
bytes are consumed and a delay is issued. -/
theorem c2_record_consumption :
    (∀ (c : DispConf) (off idx mode : Nat),
      ¬((c.ep_mode = 1 ∨ c.ep_mode = 3) ∧ 0x60 ≤ byteAt c off) →
      (send_spi_cmds_step c off idx mode).off =
          off + 2 + (byteAt c (off + 1) &&& 0x1f) ∧
      (Ev.delayArg (byteAt c (off + 1)) ∈ (send_spi_cmds_step c off idx mode).evs ↔
          byteAt c (off + 1) &&& 0x80 ≠ 0)) ∧
    (∀ (c : DispConf) (off : Nat),
      (send_spi_icmds_step c off).2 = off + 2 + (byteAt c (off + 1) &&& 0x7f) ∧
      (Ev.delayArg (byteAt c (off + 1)) ∈ (send_spi_icmds_step c off).1 ↔
          byteAt c (off + 1) &&& 0x80 ≠ 0)) ∧
    send_spi_cmds_step ex2A 0 0 0 =
      ⟨[Ev.csLow, Ev.cmd 0x2A, Ev.data8 1, Ev.data8 2, Ev.data8 3, Ev.data8 4,
        Ev.csHigh], 6, 6, 0, false⟩ ∧
    send_spi_cmds_step ex11 0 0 0 =
      ⟨[Ev.csLow, Ev.cmd 0x11, Ev.csHigh, Ev.delayArg 0x80], 2, 2, 0, false⟩ := by
  refine ⟨?_, ?_, by decide, by decide⟩
  · intro c off idx mode h
    constructor
    · simp [send_spi_cmds_step, if_neg h]
    · cases hb : c.allcmd_mode <;>
        by_cases hd : byteAt c (off + 1) &&& 0x80 ≠ 0 <;>
          simp [send_spi_cmds_step, if_neg h, hb, hd, List.mem_range]
  · intro c off
    constructor
    · simp [send_spi_icmds_step]
    · by_cases hd : byteAt c (off + 1) &&& 0x80 ≠ 0 <;>
        simp [send_spi_icmds_step, hd, List.mem_range]

/-- C2 witness: the general record property applied to the concrete
record `[0x2A][0x04][0x01][0x02][0x03][0x04]`. -/
theorem c2_record_consumption_witness :
    ¬((ex2A.ep_mode = 1 ∨ ex2A.ep_mode = 3) ∧ 0x60 ≤ byteAt ex2A 0) ∧
    ((send_spi_cmds_step ex2A 0 0 0).off = 0 + 2 + (byteAt ex2A 1 &&& 0x1f) ∧
     (Ev.delayArg (byteAt ex2A 1) ∈ (send_spi_cmds_step ex2A 0 0 0).evs ↔
        byteAt ex2A 1 &&& 0x80 ≠ 0)) :=
  ⟨by decide, c2_record_consumption.1 ex2A 0 0 0 (by decide)⟩

/-- A concrete command-sequence-mode (ep_mode 3) e-paper configuration:
two raw init bytes, then a four-byte full-update command table at offset
2 (`[0x12][0x00]` then `[0x20][0x80]`), no LUT bytes. -/
def epCmdConf : DispConf :=
  { dsp_cmds := [0x01, 0x00, 0x12, 0x00, 0x20, 0x80]
    ep_mode := 3, allcmd_mode := false, resetReason := 1
    lutfsize := 0, lutpsize := 0
    epcoffs_full := 2, epc_full_cnt := 4
    epcoffs_part := 0, epc_part_cnt := 0
    lutftime := 350, lutptime := 35 }

/-- C3 counterexample: on the command-sequence configuration
`epCmdConf`, `DisplayInit` with the full-update mode argument emits only
the `lutftime * 10` hold — it does not execute the full-update command
table (the table's first opcode 0x12 is never sent), because the
full branch of `DisplayInit` only refreshes when `lutfsize` is nonzero
and in ep_mode 3 there are no LUT bytes. The table is executed by the
interpreter only when `Updateframe_EPD` runs later (second conjunct). -/
theorem c3_counterexample :
    DisplayInit epCmdConf initModeFull initModeNone =
      ([Ev.delaySync 3500], initModeFull) ∧
    Ev.cmd 0x12 ∈
      (send_spi_cmds epCmdConf epCmdConf.epcoffs_full epCmdConf.epc_full_cnt
        initModeFull).1 := by
  constructor
  · decide
  · decide

/-- C3 amended: for a command-sequence-mode device (`ep_mode` 3, no LUT
bytes, nonempty full table), `DisplayInit` with the full-update mode
argument stores update mode "full" and performs no LUT upload and no
command execution (it only holds for `lutftime * 10`); the full-update
command table is executed through the command interpreter — the
command-table branch, not the LUT-table branch — by the next frame
update (`Updateframe_EPD`) in that stored mode. -/
theorem c3_cmd_mode_full_refresh (c : DispConf) (m : Nat)
    (h3 : c.ep_mode = 3) (hl : c.lutfsize = 0) (hc : c.epc_full_cnt ≠ 0) :
    DisplayInit c initModeFull m =
      ([Ev.delaySync (c.lutftime * 10)], initModeFull) ∧
    Updateframe_EPD c initModeFull =
      ((send_spi_cmds c c.epcoffs_full c.epc_full_cnt initModeFull).1,
       (send_spi_cmds c c.epcoffs_full c.epc_full_cnt initModeFull).2.1) := by
  constructor
  · simp [DisplayInit, h3, hl, initModeNone, initModePart, initModeFull]
  · simp [Updateframe_EPD, h3, hc, initModePart, initModeFull]

/-- C3 witness: the amended full-refresh behaviour on the concrete
command-sequence configuration `epCmdConf`. -/
theorem c3_cmd_mode_full_refresh_witness :
    epCmdConf.ep_mode = 3 ∧ epCmdConf.lutfsize = 0 ∧ epCmdConf.epc_full_cnt ≠ 0 ∧
    (DisplayInit epCmdConf initModeFull initModeNone =
        ([Ev.delaySync (epCmdConf.lutftime * 10)], initModeFull) ∧
      Updateframe_EPD epCmdConf initModeFull =
        ((send_spi_cmds epCmdConf epCmdConf.epcoffs_full epCmdConf.epc_full_cnt
            initModeFull).1,
         (send_spi_cmds epCmdConf epCmdConf.epcoffs_full epCmdConf.epc_full_cnt
            initModeFull).2.1)) :=
  ⟨by decide, by decide, by decide,
    c3_cmd_mode_full_refresh epCmdConf initModeNone rfl rfl (by decide)⟩

/-- C7: when the interpreter scans an e-paper stream (`ep_mode` 1 or 3)
and meets `BREAK_RR_EQU` (0x69) or `BREAK_RR_NEQ` (0x6A) with the
argument flag bit set, it compares the supplied byte with the device's
last-reset-reason code; on equality (EQU) respectively inequality (NEQ)
it forces the update mode to partial refresh and aborts all remaining
stream processing (second conjunct: an aborted record stops the record
loop); otherwise — comparison not triggered, or no comparison byte
supplied — processing continues as a no-op with the update mode
unchanged. -/
theorem c7_break_rr :
    (∀ (c : DispConf) (off idx mode : Nat),
      (c.ep_mode = 1 ∨ c.ep_mode = 3) →
      (byteAt c off = 0x69 ∨ byteAt c off = 0x6a) →
      ((byteAt c (off + 1) &&& 1 ≠ 0 ∧
          ((byteAt c off = 0x69 ∧ byteAt c (off + 2) = c.resetReason) ∨
           (byteAt c off = 0x6a ∧ byteAt c (off + 2) ≠ c.resetReason))) →
        send_spi_cmds_step c off idx mode =
          ⟨[Ev.csLow], off + 3, idx + 3, initModePart, true⟩) ∧
      (¬(byteAt c (off + 1) &&& 1 ≠ 0 ∧
          ((byteAt c off = 0x69 ∧ byteAt c (off + 2) = c.resetReason) ∨
           (byteAt c off = 0x6a ∧ byteAt c (off + 2) ≠ c.resetReason))) →
        (send_spi_cmds_step c off idx mode).aborted = false ∧
        (send_spi_cmds_step c off idx mode).mode = mode)) ∧
    (∀ (c : DispConf) (fuel off idx mode sz : Nat),
      (send_spi_cmds_step c off idx mode).aborted = true →
      send_spi_cmds_loop c (fuel + 1) off idx mode sz =
        ((send_spi_cmds_step c off idx mode).evs,
         (send_spi_cmds_step c off idx mode).mode, true)) := by
  constructor
  · intro c off idx mode hep hop
    have h60 : (c.ep_mode = 1 ∨ c.ep_mode = 3) ∧ 0x60 ≤ byteAt c off := by
      rcases hop with h | h <;> simp [hep, h]
    rcases hop with h | h <;>
      by_cases h1 : byteAt c (off + 1) &&& 1 ≠ 0 <;>
        by_cases he : byteAt c (off + 2) = c.resetReason <;>
          by_cases hdl : byteAt c (off + 1) &&& 0x80 ≠ 0 <;>
            constructor <;>
              simp_all [send_spi_cmds_step, h60]
  · intro c fuel off idx mode sz h
    simp [send_spi_cmds_loop, h]

/-- A 2-table e-paper configuration whose stream starts with a
`BREAK_RR_EQU` record carrying comparison byte 0x01, matching the
device's reset reason, followed by one ordinary record. -/
def epBreakConf : DispConf :=
  { dsp_cmds := [0x69, 0x01, 0x01, 0x11, 0x00]
    ep_mode := 1, allcmd_mode := false, resetReason := 1
    lutfsize := 30, lutpsize := 30
    epcoffs_full := 0, epc_full_cnt := 0
    epcoffs_part := 0, epc_part_cnt := 0
    lutftime := 350, lutptime := 35 }

/-- C7 witness: on `epBreakConf` (stream `[0x69][0x01][0x01]`, reset
reason 1) the EQU comparison triggers: the step aborts with mode forced
to partial refresh, and the loop stops at that record. -/
theorem c7_break_rr_witness :
    ((epBreakConf.ep_mode = 1 ∨ epBreakConf.ep_mode = 3) ∧
      (byteAt epBreakConf 0 = 0x69 ∨ byteAt epBreakConf 0 = 0x6a) ∧
      (byteAt epBreakConf 1 &&& 1 ≠ 0 ∧
        ((byteAt epBreakConf 0 = 0x69 ∧ byteAt epBreakConf 2 = epBreakConf.resetReason) ∨
         (byteAt epBreakConf 0 = 0x6a ∧ byteAt epBreakConf 2 ≠ epBreakConf.resetReason))) ∧
      send_spi_cmds_step epBreakConf 0 0 initModeFull =
        ⟨[Ev.csLow], 0 + 3, 0 + 3, initModePart, true⟩) ∧
    ((send_spi_cmds_step epBreakConf 0 0 initModeFull).aborted = true ∧
      send_spi_cmds_loop epBreakConf (4 + 1) 0 0 initModeFull 5 =
        ((send_spi_cmds_step epBreakConf 0 0 initModeFull).evs,
         (send_spi_cmds_step epBreakConf 0 0 initModeFull).mode, true)) :=
  ⟨⟨by decide, by decide, by decide,
      ((c7_break_rr.1 epBreakConf 0 0 initModeFull (by decide) (by decide)).1
        (by decide))⟩,
    ⟨by decide, c7_break_rr.2 epBreakConf 4 0 0 initModeFull 5 (by decide)⟩⟩

/-! ## Rotation and the address window (uDisplay_graphics.cpp,
uDisplay_spi_panel.cpp)

`uDisplay` is a facade over a polymorphic `universal_panel`; every
graphics operation first offers itself to the panel and only proceeds
when the panel reports the call as not handled. The modelled panels are
"no panel", the `SPIPanel` (which records the address window and can
handle rotation when a memory-access command is configured) and the
`EPDPanel` (whose `setRotation`/`setAddrWindow` always report
handled). -/

/-- Conversion of a C `int` expression to `uint16_t` (two's complement
truncation). -/
def u16OfInt (v : Int) : Nat := (v % 65536).toNat

/-- Conversion of a C `int` expression to `uint32_t` (two's complement
truncation). -/
def u32OfInt (v : Int) : Nat := (v % 4294967296).toNat

/-- `uint16_t` subtraction `a - b` (wraparound), for `a, b < 65536`. -/
def u16sub (a b : Nat) : Nat := (a + 65536 - b) % 65536

/-- The fields of `SPIPanelConfig` read by `SPIPanel::setRotation`,
`SPIPanel::setAddrWindow_internal` and `SPIPanel::pushColors`. -/
structure SPIPanelConf where
  width : Nat
  height : Nat
  bpp : Nat
  col_mode : Nat
  cmd_set_addr_x : Nat
  cmd_set_addr_y : Nat
  cmd_write_ram : Nat
  cmd_memory_access : Nat
  all_commands_mode : Bool
  address_mode : Nat
  rot_cmd : List Nat
  x_addr_offset : List Nat
  y_addr_offset : List Nat
  deriving DecidableEq, Repr

/-- The mutable `SPIPanel` state: its configuration, the stored rotation
index and the recorded address window (`window_x0..window_y1`). -/
structure SPIPanelState where
  cfg : SPIPanelConf
  rotation : Nat
  window_x0 : Nat
  window_y0 : Nat
  window_x1 : Nat
  window_y1 : Nat
  deriving DecidableEq, Repr

/-- `SPIPanel::setRotation` (uDisplay_spi_panel.cpp lines 281-295):
stores `rotation = rot & 3`; when both the memory-access command and the
per-rotation command are configured (≠ 0xFF) it sends them and reports
the call handled, otherwise it reports not handled. -/
def SPIPanel_setRotation (p : SPIPanelState) (rot : Nat) :
    SPIPanelState × List Ev × Bool :=
  let rotation := rot &&& 3
  let p := { p with rotation := rotation }
  let rc := p.cfg.rot_cmd.getD rotation 0xFF
  if p.cfg.cmd_memory_access ≠ 0xFF ∧ rc ≠ 0xFF then
    (p, [Ev.cmd p.cfg.cmd_memory_access,
         if p.cfg.all_commands_mode then Ev.cmd rc else Ev.data8 rc], true)
  else (p, [], false)

/-- `SPIPanel::setAddrWindow_internal` (uDisplay_spi_panel.cpp lines
190-241): apply the per-rotation offsets, compute the inclusive window
ends as `uint16_t`, then program the window either as two 32-bit packed
writes (`address_mode ≠ 8`) or as four 8-bit writes with axes swapped
for odd rotations, followed by the write-RAM command when configured. -/
def SPIPanel_setAddrWindow_internal_evs (cfg : SPIPanelConf)
    (rotation x y w h : Nat) : List Ev :=
  let x := (x + cfg.x_addr_offset.getD rotation 0) % 65536
  let y := (y + cfg.y_addr_offset.getD rotation 0) % 65536
  let x2 := u16OfInt ((x : Int) + w - 1)
  let y2 := u16OfInt ((y : Int) + h - 1)
  if cfg.address_mode ≠ 8 then
    let xa := (x <<< 16) ||| x2
    let ya := (y <<< 16) ||| y2
    [Ev.cmd cfg.cmd_set_addr_x, Ev.data32 xa,
     Ev.cmd cfg.cmd_set_addr_y, Ev.data32 ya] ++
      (if cfg.cmd_write_ram ≠ 0xFF then [Ev.cmd cfg.cmd_write_ram] else [])
  else
    let p := if rotation &&& 1 = 1 then (y, x, y2, x2) else (x, y, x2, y2)
    [Ev.cmd cfg.cmd_set_addr_x] ++
      (if cfg.all_commands_mode then [Ev.data8 (p.1 % 256), Ev.data8 (p.2.2.1 % 256)]
       else [Ev.cmd (p.1 % 256), Ev.cmd (p.2.2.1 % 256)]) ++
    [Ev.cmd cfg.cmd_set_addr_y] ++
      (if cfg.all_commands_mode then [Ev.data8 (p.2.1 % 256), Ev.data8 (p.2.2.2 % 256)]
       else [Ev.cmd (p.2.1 % 256), Ev.cmd (p.2.2.2 % 256)]) ++
      (if cfg.cmd_write_ram ≠ 0xFF then [Ev.cmd cfg.cmd_write_ram] else [])

/-- The window (re)programming performed by `SPIPanel::pushColors` when
its `first` flag is set: `setAddrWindow_internal` on the recorded window
followed by the write-RAM command. -/
def SPIPanel_windowProg (p : SPIPanelState) : List Ev :=
  SPIPanel_setAddrWindow_internal_evs p.cfg p.rotation
      p.window_x0 p.window_y0 p.window_x1 p.window_y1 ++
    [Ev.cmd p.cfg.cmd_write_ram]

/-- The pixel-streaming part of `SPIPanel::pushColors`: 18-bit color
mode expands each RGB565 word to three 8-bit channel writes via the
`WriteColor` rescale, 16-bit mode streams the words as one bulk
transfer. -/
def SPIPanel_pixEvs (cfg : SPIPanelConf) (data : List Nat) : List Ev :=
  if cfg.col_mode = 18 then
    data.flatMap fun color =>
      [Ev.data8 (writeColor18_r color), Ev.data8 (writeColor18_g color),
       Ev.data8 (writeColor18_b color)]
  else [Ev.pushPix data]

/-- `SPIPanel::pushColors` (uDisplay_spi_panel.cpp lines 117-179): for
16 ≤ bpp, when `first` is set program the recorded window and the
write-RAM command, then stream the pixels; reports handled. Lower
depths report not handled. -/
def SPIPanel_pushColors (p : SPIPanelState) (data : List Nat) (first : Bool) :
    List Ev × Bool :=
  if 16 ≤ p.cfg.bpp then
    ((if first then SPIPanel_windowProg p else []) ++ SPIPanel_pixEvs p.cfg data,
      true)
  else ([], false)

/-- `SPIPanel::setAddrWindow` (uDisplay_spi_panel.cpp lines 181-188):
unconditionally records the window and reports the call handled. -/
def SPIPanel_setAddrWindow (p : SPIPanelState) (x0 y0 x1 y1 : Nat) :
    SPIPanelState :=
  { p with window_x0 := x0, window_y0 := y0, window_x1 := x1, window_y1 := y1 }

/-- The universal panel attached to the facade: absent, an `SPIPanel`,
or an `EPDPanel`. -/
inductive Panel where
  | nopanel
  | spi (p : SPIPanelState)
  | epd
  deriving DecidableEq, Repr

/-- Modelled from the spec: the `_UDSP_*` interface constants are
declared in `uDisplay.h`, which is not among the sources; the code only
tests `interface` for zero ("no valid configuration") and compares it
against these constants, so only "unset = 0" and distinctness matter. -/
def UDSP_I2C : Nat := 1

/-- Modelled from the spec: see `UDSP_I2C`. -/
def UDSP_SPI : Nat := 2

/-- Modelled from the spec: see `UDSP_I2C`. -/
def UDSP_PAR8 : Nat := 3

/-- Modelled from the spec: see `UDSP_I2C`. -/
def UDSP_PAR16 : Nat := 4

/-- Modelled from the spec: see `UDSP_I2C`. -/
def UDSP_RGB : Nat := 5

/-- Modelled from the spec: see `UDSP_I2C`. -/
def UDSP_DSI : Nat := 6

/-- The facade (`uDisplay`) state read and written by `setRotation` and
`setAddrWindow`: the interface kind, e-paper mode, whether the local
framebuffer is allocated, the configured panel size `gxs × gys`, the
reported `_width`/`_height`, the stored rotation `cur_rot`, the attached
panel, and the addressing configuration (`madctrl`, `startline`,
`allcmd_mode`, `sa_mode`, `saw_1..3`, per-rotation command and offset
tables). -/
structure Facade where
  interface : Nat
  ep_mode : Nat
  fb : Bool
  gxs : Nat
  gys : Nat
  w : Nat
  h : Nat
  cur_rot : Nat
  panel : Panel
  madctrl : Nat
  startline : Nat
  allcmd_mode : Bool
  sa_mode : Nat
  saw_1 : Nat
  saw_2 : Nat
  saw_3 : Nat
  rot : List Nat
  x_addr_offs : List Nat
  y_addr_offs : List Nat
  deriving DecidableEq, Repr

/-- Modelled from the spec: `Renderer::setRotation` (the base graphics
class is not among the sources). Per the spec, the base renderer swaps
the reported width/height when the rotation index, taken modulo 4, is
odd. It does not touch the facade's `cur_rot`. -/
def Renderer_setRotation (s : Facade) (r : Nat) : Facade :=
  if r % 4 = 1 ∨ r % 4 = 3 then { s with w := s.gys, h := s.gxs }
  else { s with w := s.gxs, h := s.gys }

/-- Dispatch of `universal_panel->setRotation(rotation)`. -/
def panel_setRotation (pan : Panel) (r : Nat) : Panel × List Ev × Bool :=
  match pan with
  | Panel.nopanel => (pan, [], false)
  | Panel.spi p =>
    let q := SPIPanel_setRotation p r
    (Panel.spi q.1, q.2.1, q.2.2)
  | Panel.epd => (pan, [], true)

/-- The `switch (rotation)` at the end of `uDisplay::setRotation`
(uDisplay_graphics.cpp lines 426-443): cases 0-3 set the reported
width/height, any other value leaves them unchanged. -/
def sizeSwitch (s : Facade) (rotation : Nat) : Facade :=
  if rotation = 0 then { s with w := s.gxs, h := s.gys }
  else if rotation = 1 then { s with w := s.gys, h := s.gxs }
  else if rotation = 2 then { s with w := s.gxs, h := s.gys }
  else if rotation = 3 then { s with w := s.gys, h := s.gxs }
  else s

/-- `uDisplay::setRotation` (uDisplay_graphics.cpp lines 390-444):
store `cur_rot`, return early if the panel reports the rotation handled,
otherwise delegate to the base renderer when a framebuffer is allocated
(or for e-paper SPI/parallel), else send the memory-access command
sequence for SPI/parallel and finally run the width/height switch. -/
def uDisplay_setRotation (s : Facade) (rotation : Nat) : Facade × List Ev :=
  let s := { s with cur_rot := rotation }
  let pr := panel_setRotation s.panel rotation
  let s := { s with panel := pr.1 }
  if pr.2.2 then (s, pr.2.1)
  else if s.fb then (Renderer_setRotation s rotation, pr.2.1)
  else if s.interface = UDSP_SPI ∨ s.interface = UDSP_PAR8 ∨
      s.interface = UDSP_PAR16 then
    if s.ep_mode ≠ 0 then (Renderer_setRotation s rotation, pr.2.1)
    else
      let rc := s.rot.getD s.cur_rot 0
      let evs := [Ev.beginTr, Ev.csLow, Ev.cmd s.madctrl,
          if s.allcmd_mode then Ev.cmd rc else Ev.data8 rc] ++
        (if s.sa_mode = 8 ∧ ¬s.allcmd_mode then
          [Ev.cmd s.startline, Ev.data8 (if s.cur_rot < 2 then s.h % 256 else 0)]
        else []) ++ [Ev.csHigh, Ev.endTr]
      (sizeSwitch s rotation, pr.2.1 ++ evs)
  else (sizeSwitch s rotation, pr.2.1)

/-- Dispatch of `universal_panel->setAddrWindow(x0, y0, x1, y1)`: the
`SPIPanel` records the window and reports handled, the `EPDPanel`
reports handled without recording, no panel reports not handled. -/
def panel_setAddrWindow (pan : Panel) (x0 y0 x1 y1 : Nat) : Panel × Bool :=
  match pan with
  | Panel.nopanel => (pan, false)
  | Panel.spi p => (Panel.spi (SPIPanel_setAddrWindow p x0 y0 x1 y1), true)
  | Panel.epd => (pan, true)

/-- `uDisplay::setAddrWindow_int` (uDisplay_graphics.cpp lines
339-388), as the event list it sends: nothing for RGB; otherwise apply
the per-rotation offsets and program the window in 32-bit packed or
8-bit mode (axes swapped for odd rotations), then the write-RAM command
when `saw_3` is configured. -/
def setAddrWindow_int_evs (s : Facade) (x y w h : Nat) : List Ev :=
  if s.interface = UDSP_RGB then []
  else
    let x := (x + s.x_addr_offs.getD s.cur_rot 0) % 65536
    let y := (y + s.y_addr_offs.getD s.cur_rot 0) % 65536
    if s.sa_mode ≠ 8 then
      let xa := (x <<< 16) ||| u32OfInt ((x : Int) + w - 1)
      let ya := (y <<< 16) ||| u32OfInt ((y : Int) + h - 1)
      [Ev.cmd s.saw_1, Ev.data32 xa, Ev.cmd s.saw_2, Ev.data32 ya] ++
        (if s.saw_3 ≠ 0xFF then [Ev.cmd s.saw_3] else [])
    else
      let x2 := u16OfInt ((x : Int) + w - 1)
      let y2 := u16OfInt ((y : Int) + h - 1)
      let p := if s.cur_rot &&& 1 = 1 then (y, x, y2, x2) else (x, y, x2, y2)
      [Ev.cmd s.saw_1] ++
        (if s.allcmd_mode then [Ev.data8 (p.1 % 256), Ev.data8 (p.2.2.1 % 256)]
        else [Ev.cmd (p.1 % 256), Ev.cmd (p.2.2.1 % 256)]) ++
      [Ev.cmd s.saw_2] ++
        (if s.allcmd_mode then [Ev.data8 (p.2.1 % 256), Ev.data8 (p.2.2.2 % 256)]
        else [Ev.cmd (p.2.1 % 256), Ev.cmd (p.2.2.2 % 256)]) ++
        (if s.saw_3 ≠ 0xFF then [Ev.cmd s.saw_3] else [])

/-- `uDisplay::setAddrWindow` (uDisplay_graphics.cpp lines 324-337):
offer the call to the panel; otherwise all-zero coordinates close the
open bus transaction (`csHigh`, `endTransaction`) and program nothing,
and any other window opens a transaction and programs
`setAddrWindow_int(x0, y0, x1 - x0, y1 - y0)`. -/
def uDisplay_setAddrWindow (s : Facade) (x0 y0 x1 y1 : Nat) :
    Facade × List Ev :=
  let pr := panel_setAddrWindow s.panel x0 y0 x1 y1
  if pr.2 then ({ s with panel := pr.1 }, [])
  else if x0 = 0 ∧ y0 = 0 ∧ x1 = 0 ∧ y1 = 0 then (s, [Ev.csHigh, Ev.endTr])
  else
    (s, [Ev.beginTr, Ev.csLow] ++
      setAddrWindow_int_evs s x0 y0 (u16sub x1 x0) (u16sub y1 y0))

/-- A 296×128 e-paper facade (2-table mode, framebuffer allocated,
`EPDPanel` attached), as built by `Init` for an SPI e-paper
descriptor. -/
def epdRotFacade : Facade :=
  { interface := UDSP_SPI, ep_mode := 1, fb := true, gxs := 296, gys := 128
    w := 296, h := 128, cur_rot := 0, panel := Panel.epd
    madctrl := 0xFF, startline := 0xA1, allcmd_mode := false, sa_mode := 16
    saw_1 := 0x44, saw_2 := 0x45, saw_3 := 0x24
    rot := [0, 0, 0, 0], x_addr_offs := [0, 0, 0, 0], y_addr_offs := [0, 0, 0, 0] }

/-- C4: evaluation of `uDisplay::setRotation(1)` on the concrete
e-paper facade `epdRotFacade` (panel 296×128): because
`EPDPanel::setRotation` always reports the rotation as handled (its own
comment says rotation is handled in the uDisplay framebuffer), the
facade returns before the width/height switch, and the reported width
stays 296 and height 128 — not the swapped 128×296 required by the
axis-swap property for the odd rotation index 1. -/
theorem c4_rotation_not_swapped_eval :
    (uDisplay_setRotation epdRotFacade 1).1.w = 296 ∧
    (uDisplay_setRotation epdRotFacade 1).1.h = 128 ∧
    epdRotFacade.gxs = 296 ∧ epdRotFacade.gys = 128 ∧
    (uDisplay_setRotation epdRotFacade 1).1.w ≠ epdRotFacade.gys := by
  refine ⟨?_, ?_, rfl, rfl, ?_⟩ <;> decide

/-- A 240×320 SPI-TFT facade with an attached `SPIPanel` that has a
configured memory-access command, so `SPIPanel::setRotation` reports
rotations handled; no framebuffer (16 bpp direct path). -/
def spiRotFacade : Facade :=
  { interface := UDSP_SPI, ep_mode := 0, fb := false, gxs := 240, gys := 320
    w := 240, h := 320, cur_rot := 0
    panel := Panel.spi
      { cfg :=
          { width := 240, height := 320, bpp := 16, col_mode := 16
            cmd_set_addr_x := 0x2A, cmd_set_addr_y := 0x2B, cmd_write_ram := 0x2C
            cmd_memory_access := 0x36, all_commands_mode := false
            address_mode := 16, rot_cmd := [0x08, 0x68, 0xC8, 0xA8]
            x_addr_offset := [0, 0, 0, 0], y_addr_offset := [0, 0, 0, 0] }
        rotation := 0, window_x0 := 0, window_y0 := 0
        window_x1 := 239, window_y1 := 319 }
    madctrl := 0x36, startline := 0xA1, allcmd_mode := false, sa_mode := 16
    saw_1 := 0x2A, saw_2 := 0x2B, saw_3 := 0x2C
    rot := [0x08, 0x68, 0xC8, 0xA8]
    x_addr_offs := [0, 0, 0, 0], y_addr_offs := [0, 0, 0, 0] }

/-- A facade with no attached panel, no framebuffer and a non-SPI
interface, so `uDisplay::setRotation` reaches the width/height switch
directly. -/
def rgbRotFacade : Facade :=
  { interface := UDSP_RGB, ep_mode := 0, fb := false, gxs := 480, gys := 272
    w := 480, h := 272, cur_rot := 0, panel := Panel.nopanel
    madctrl := 0xFF, startline := 0xA1, allcmd_mode := false, sa_mode := 16
    saw_1 := 0, saw_2 := 0, saw_3 := 0
    rot := [0, 0, 0, 0], x_addr_offs := [0, 0, 0, 0], y_addr_offs := [0, 0, 0, 0] }

/-- C6 counterexample: `uDisplay::setRotation(4)` stores `cur_rot = 4`
unreduced — `cur_rot = rotation;` takes no modulo and the width/height
switch has no case for values above 3 — so the stored index differs
from `4 mod 4 = 0`. -/
theorem c6_counterexample :
    (uDisplay_setRotation rgbRotFacade 4).1.cur_rot ≠ 4 % 4 := by decide

/-- C6 amended: `SPIPanel::setRotation` stores the rotation index
reduced modulo 4 (`rot & 3`); the facade `uDisplay::setRotation`,
however, stores the raw argument in `cur_rot` with no reduction (so the
modulo-4 invariant holds at the facade only for arguments already in
0..3, which the width/height switch likewise assumes). -/
theorem Renderer_setRotation_cur_rot (s : Facade) (r : Nat) :
    (Renderer_setRotation s r).cur_rot = s.cur_rot := by
  unfold Renderer_setRotation
  split <;> rfl

theorem sizeSwitch_cur_rot (s : Facade) (r : Nat) :
    (sizeSwitch s r).cur_rot = s.cur_rot := by
  unfold sizeSwitch
  split_ifs <;> rfl

theorem c6_rotation_mod4 :
    (∀ (p : SPIPanelState) (rot : Nat),
      (SPIPanel_setRotation p rot).1.rotation = rot % 4) ∧
    (∀ (s : Facade) (rot : Nat),
      (uDisplay_setRotation s rot).1.cur_rot = rot) := by
  constructor
  · intro p rot
    have h3 : rot &&& 3 = rot % 4 := by
      simpa using Nat.and_pow_two_sub_one_eq_mod rot 2
    dsimp only [SPIPanel_setRotation]
    split <;> exact h3
  · intro s rot
    dsimp only [uDisplay_setRotation]
    split_ifs <;>
      simp [Renderer_setRotation_cur_rot, sizeSwitch_cur_rot]

/-- The `SPIPanel` state of a 240×320 16-bpp TFT used for the
address-window claims. -/
def spiAwPanelSt : SPIPanelState :=
  { cfg :=
      { width := 240, height := 320, bpp := 16, col_mode := 16
        cmd_set_addr_x := 0x2A, cmd_set_addr_y := 0x2B, cmd_write_ram := 0x2C
        cmd_memory_access := 0x36, all_commands_mode := false
        address_mode := 16, rot_cmd := [0x08, 0x68, 0xC8, 0xA8]
        x_addr_offset := [0, 0, 0, 0], y_addr_offset := [0, 0, 0, 0] }
    rotation := 0, window_x0 := 10, window_y0 := 20
    window_x1 := 30, window_y1 := 40 }

/-- A 240×320 SPI-TFT facade with an attached `SPIPanel`, used for the
address-window claims. -/
def spiAwFacade : Facade :=
  { interface := UDSP_SPI, ep_mode := 0, fb := false, gxs := 240, gys := 320
    w := 240, h := 320, cur_rot := 0
    panel := Panel.spi spiAwPanelSt
    madctrl := 0x36, startline := 0xA1, allcmd_mode := false, sa_mode := 16
    saw_1 := 0x2A, saw_2 := 0x2B, saw_3 := 0x2C
    rot := [0x08, 0x68, 0xC8, 0xA8]
    x_addr_offs := [0, 0, 0, 0], y_addr_offs := [0, 0, 0, 0] }

/-- C8 counterexample: with an `SPIPanel` attached, the all-zero call
`setAddrWindow(0,0,0,0)` does not act as a flush — the panel records
`(0,0,0,0)` as the window and reports the call handled, so the facade
never reaches its `csHigh`/`endTransaction` branch and the open bus
transaction is not closed. -/
theorem c8_counterexample :
    Ev.endTr ∉ (uDisplay_setAddrWindow spiAwFacade 0 0 0 0).2 ∧
    (∀ q, (uDisplay_setAddrWindow spiAwFacade 0 0 0 0).1.panel = Panel.spi q →
      q.window_x0 = 0 ∧ q.window_y0 = 0 ∧ q.window_x1 = 0 ∧ q.window_y1 = 0) := by
  constructor
  · decide
  · intro q hq
    cases hq
    exact ⟨rfl, rfl, rfl, rfl⟩

/-- C8 amended: the flush/finalize meaning of the all-zero window holds
only on the facade path where no panel handles the call: there all-zero
closes the transaction and programs no window, and any other window is
programmed immediately. When an `SPIPanel` is attached, every call —
all-zero included — merely records the window (no flush, no bus
events), and the recorded window is consumed by the next `pushColors`
with the first-flag set, which programs it before streaming. -/
theorem c8_addr_window :
    (∀ (s : Facade) (x0 y0 x1 y1 : Nat), s.panel = Panel.nopanel →
      ((x0 = 0 ∧ y0 = 0 ∧ x1 = 0 ∧ y1 = 0) →
        uDisplay_setAddrWindow s x0 y0 x1 y1 = (s, [Ev.csHigh, Ev.endTr])) ∧
      (¬(x0 = 0 ∧ y0 = 0 ∧ x1 = 0 ∧ y1 = 0) →
        uDisplay_setAddrWindow s x0 y0 x1 y1 =
          (s, [Ev.beginTr, Ev.csLow] ++
            setAddrWindow_int_evs s x0 y0 (u16sub x1 x0) (u16sub y1 y0)))) ∧
    (∀ (s : Facade) (p : SPIPanelState) (x0 y0 x1 y1 : Nat),
      s.panel = Panel.spi p →
      uDisplay_setAddrWindow s x0 y0 x1 y1 =
        ({ s with panel := Panel.spi (SPIPanel_setAddrWindow p x0 y0 x1 y1) },
          [])) ∧
    (∀ (p : SPIPanelState) (x0 y0 x1 y1 : Nat) (data : List Nat),
      16 ≤ p.cfg.bpp →
      (SPIPanel_pushColors (SPIPanel_setAddrWindow p x0 y0 x1 y1) data true).1 =
        SPIPanel_setAddrWindow_internal_evs p.cfg p.rotation x0 y0 x1 y1 ++
          [Ev.cmd p.cfg.cmd_write_ram] ++ SPIPanel_pixEvs p.cfg data) := by
  refine ⟨?_, ?_, ?_⟩
  · intro s x0 y0 x1 y1 hp
    constructor
    · rintro ⟨h0, h1, h2, h3⟩
      subst h0; subst h1; subst h2; subst h3
      simp [uDisplay_setAddrWindow, panel_setAddrWindow, hp]
    · intro hnz
      simp [uDisplay_setAddrWindow, panel_setAddrWindow, hp, hnz]
  · intro s p x0 y0 x1 y1 hp
    simp [uDisplay_setAddrWindow, panel_setAddrWindow, hp]
  · intro p x0 y0 x1 y1 data hb
    simp [SPIPanel_pushColors, SPIPanel_windowProg, SPIPanel_setAddrWindow, hb]

/-- C8 witness: the amended address-window behaviour at concrete
inputs: the no-panel flush on `rgbRotFacade`, the recording behaviour on
`spiAwFacade`, and the consumption of a recorded `(5,6,7,8)` window by a
first-flagged `pushColors`. -/
theorem c8_addr_window_witness :
    (rgbRotFacade.panel = Panel.nopanel ∧
      ((0 = 0 ∧ 0 = 0 ∧ 0 = 0 ∧ 0 = 0) →
        uDisplay_setAddrWindow rgbRotFacade 0 0 0 0 =
          (rgbRotFacade, [Ev.csHigh, Ev.endTr])) ∧
      (¬(0 = 0 ∧ 0 = 0 ∧ 0 = 0 ∧ 0 = 0) →
        uDisplay_setAddrWindow rgbRotFacade 0 0 0 0 =
          (rgbRotFacade, [Ev.beginTr, Ev.csLow] ++
            setAddrWindow_int_evs rgbRotFacade 0 0 (u16sub 0 0) (u16sub 0 0)))) ∧
    ∀ (p : SPIPanelState), p = spiAwPanelSt →
      (16 ≤ p.cfg.bpp ∧
        (SPIPanel_pushColors (SPIPanel_setAddrWindow p 5 6 7 8) [1, 2] true).1 =
          SPIPanel_setAddrWindow_internal_evs p.cfg p.rotation 5 6 7 8 ++
            [Ev.cmd p.cfg.cmd_write_ram] ++ SPIPanel_pixEvs p.cfg [1, 2]) :=
  ⟨⟨rfl, (c8_addr_window.1 rgbRotFacade 0 0 0 0 rfl).1,
      fun hnz => absurd ⟨rfl, rfl, rfl, rfl⟩ hnz⟩,
    fun p hp => ⟨by rw [hp]; decide,
      c8_addr_window.2.2 p 5 6 7 8 [1, 2] (by rw [hp]; decide)⟩⟩

/-! ## Driver construction (uDisplay.cpp `Init`, lines 986-1210) -/

/-- The kind of concrete panel `Init` constructs. -/
inductive PanelTag where
  | i2cPan
  | spiPan
  | epdPan
  | rgbPan
  | dsiPan
  | i80Pan
  deriving DecidableEq, Repr

/-- The configuration read by `uDisplay::Init`: the interpreter
configuration (for the init command stream), the parsed interface kind,
the color depth, whether PSRAM is available (`UsePSRAM()`), the reset
pin and the number of accumulated init command bytes. -/
structure InitConf where
  disp : DispConf
  interface : Nat
  bpp : Nat
  psram : Bool
  reset : Int
  dsp_ncmds : Nat
  deriving DecidableEq, Repr

/-- The observable outcome of `uDisplay::Init`: whether it returned
NULL, which panel it constructed (if any), whether the local
framebuffer was allocated, and the emitted events (a `panelCtor`-style
construction is recorded as the panel in `panel`; transport traffic of
the SPI init stream is recorded in `evs`). -/
structure InitOut where
  ret_null : Bool
  panel : Option PanelTag
  fb_alloc : Bool
  evs : List Ev
  deriving DecidableEq, Repr

/-- `uDisplay::Init` (uDisplay.cpp lines 986-1210): abort with NULL
when no interface was recognized ("no valid configuration") — before
any allocation, construction or bus traffic; otherwise allocate the
framebuffer for e-paper or sub-16-bpp depths and construct the panel
for the interface: I2C pages (the two-bus SoC build always resolves a
wire), SPI (reset pulse when a reset pin is configured, then the init
command stream through the interpreter, then the `EPDPanel` or the
`SPIPanel`), RGB (aborts with NULL without PSRAM), DSI, parallel-8/16.
An unrecognized nonzero interface value falls through every branch and
returns the driver with no panel (the parser never produces one). -/
def uDisplay_Init (c : InitConf) : InitOut :=
  if c.interface = 0 then InitOut.mk true none false []
  else
    let fb := c.disp.ep_mode ≠ 0 ∨ c.bpp < 16
    if c.interface = UDSP_I2C then InitOut.mk false (some PanelTag.i2cPan) fb []
    else if c.interface = UDSP_SPI then
      let resetEvs := if 0 ≤ c.reset then [Ev.resetPin 50] else []
      let initEvs := (send_spi_cmds c.disp 0 c.dsp_ncmds initModeNone).1
      if c.disp.ep_mode ≠ 0 then
        InitOut.mk false (some PanelTag.epdPan) fb (resetEvs ++ initEvs)
      else
        InitOut.mk false (some PanelTag.spiPan) fb (resetEvs ++ initEvs)
    else if c.interface = UDSP_RGB then
      if c.psram = false then InitOut.mk true none fb []
      else InitOut.mk false (some PanelTag.rgbPan) fb []
    else if c.interface = UDSP_DSI then InitOut.mk false (some PanelTag.dsiPan) fb []
    else if c.interface = UDSP_PAR8 ∨ c.interface = UDSP_PAR16 then
      let resetEvs := if 0 ≤ c.reset then [Ev.resetPin 50] else []
      InitOut.mk false (some PanelTag.i80Pan) fb resetEvs
    else InitOut.mk false none fb []

/-- An RGB-interface configuration (16 bpp, no e-paper). -/
def rgbInitConf : InitConf :=
  { disp :=
      { dsp_cmds := [], ep_mode := 0, allcmd_mode := false, resetReason := 1
        lutfsize := 0, lutpsize := 0
        epcoffs_full := 0, epc_full_cnt := 0
        epcoffs_part := 0, epc_part_cnt := 0
        lutftime := 350, lutptime := 35 }
    interface := UDSP_RGB, bpp := 16, psram := false, reset := -1
    dsp_ncmds := 0 }

/-- C9 counterexample: with the RGB interface recognized but PSRAM
unavailable, `Init` also returns NULL ("RGB requires PSRAM, abort") and
constructs no panel — refuting "when a recognized interface is set, it
constructs the panel and returns a non-null driver". -/
theorem c9_counterexample :
    rgbInitConf.interface ≠ 0 ∧
    (uDisplay_Init rgbInitConf).ret_null = true ∧
    (uDisplay_Init rgbInitConf).panel = none := by
  refine ⟨by decide, by decide, by decide⟩

/-- C9 amended: `Init` returns NULL exactly when the interface is unset
(0) or when it is RGB and PSRAM is unavailable; in the unset case it
allocates nothing, constructs no panel and issues no bus traffic; for
every recognized interface value (1..6) a non-NULL return comes with a
constructed panel. -/
theorem c9_init_null (c : InitConf) :
    ((uDisplay_Init c).ret_null = true ↔
      c.interface = 0 ∨ (c.interface = UDSP_RGB ∧ c.psram = false)) ∧
    (c.interface = 0 → uDisplay_Init c = InitOut.mk true none false []) ∧
    (c.interface ≤ 6 → (uDisplay_Init c).ret_null = false →
      ((uDisplay_Init c).panel).isSome = true) := by
  refine ⟨?_, ?_, ?_⟩
  · dsimp only [uDisplay_Init]
    split_ifs <;> simp_all [UDSP_I2C, UDSP_SPI, UDSP_PAR8, UDSP_PAR16,
      UDSP_RGB, UDSP_DSI]
  · intro h0
    simp [uDisplay_Init, h0]
  · intro hle
    dsimp only [uDisplay_Init]
    split_ifs <;>
      first
        | (simp_all [UDSP_I2C, UDSP_SPI, UDSP_PAR8, UDSP_PAR16,
            UDSP_RGB, UDSP_DSI]; omega)
        | simp_all [UDSP_I2C, UDSP_SPI, UDSP_PAR8, UDSP_PAR16,
            UDSP_RGB, UDSP_DSI]

/-- C9 witness: the amended `Init` contract evaluated on the concrete
RGB-without-PSRAM configuration. -/
theorem c9_init_null_witness :
    ((uDisplay_Init rgbInitConf).ret_null = true ↔
      rgbInitConf.interface = 0 ∨
        (rgbInitConf.interface = UDSP_RGB ∧ rgbInitConf.psram = false)) ∧
    (rgbInitConf.interface = 0 →
      uDisplay_Init rgbInitConf = InitOut.mk true none false []) ∧
    (rgbInitConf.interface ≤ 6 → (uDisplay_Init rgbInitConf).ret_null = false →
      ((uDisplay_Init rgbInitConf).panel).isSome = true) :=
  c9_init_null rgbInitConf

/-! ## E-paper framebuffer pixel writes (uDisplay_epd_panel.cpp) -/

/-- The `EPDPanelConfig` fields read by the pixel operations. -/
structure EPDPixCfg where
  width : Nat
  height : Nat
  invert_colors : Bool
  deriving DecidableEq, Repr

/-- `EPDPanel::drawAbsolutePixel` (uDisplay_epd_panel.cpp lines
199-212): out-of-range coordinates return with the framebuffer
untouched; otherwise the byte at `(x + y*width)/8` (a `uint16_t`) has
bit `7 - x%8` set (nonzero color) or cleared (zero color). The
framebuffer is a byte list; each entry stays below 256. -/
def drawAbsolutePixel (cfg : EPDPixCfg) (fb : List Nat) (x y : Int)
    (color : Nat) : List Nat :=
  if x < 0 ∨ (cfg.width : Int) ≤ x ∨ y < 0 ∨ (cfg.height : Int) ≤ y then fb
  else
    let xn := x.toNat
    let yn := y.toNat
    let byte_pos := ((xn + yn * cfg.width) / 8) % 65536
    let bit_pos := 7 - xn % 8
    if color ≠ 0 then fb.set byte_pos ((fb.getD byte_pos 0) ||| (1 <<< bit_pos))
    else fb.set byte_pos ((fb.getD byte_pos 0) &&& (0xFF ^^^ (1 <<< bit_pos)))

/-- The monochrome color computed by `EPDPanel::drawPixel`: nonzero
colors map to 1, then the inversion flag flips the bit
(`mono_color = !mono_color`). -/
def EPD_mono (cfg : EPDPixCfg) (color : Nat) : Nat :=
  let mono := if color ≠ 0 then 1 else 0
  if cfg.invert_colors then (if mono ≠ 0 then 0 else 1) else mono

/-- `EPDPanel::drawPixel` (uDisplay_epd_panel.cpp lines 216-226):
without a framebuffer report not handled; otherwise reduce the color to
monochrome via `EPD_mono`, draw the absolute pixel and report
handled. -/
def EPD_drawPixel (cfg : EPDPixCfg) (fb : List Nat) (fbPresent : Bool)
    (x y : Int) (color : Nat) : List Nat × Bool :=
  if fbPresent = false then (fb, false)
  else (drawAbsolutePixel cfg fb x y (EPD_mono cfg color), true)

theorem drawAbsolutePixel_in_range (cfg : EPDPixCfg) (fb : List Nat)
    (x y : Int) (mono : Nat)
    (h8 : cfg.width * cfg.height % 8 = 0)
    (hsz : cfg.width * cfg.height ≤ 524288)
    (hx0 : 0 ≤ x) (hxw : x < (cfg.width : Int))
    (hy0 : 0 ≤ y) (hyh : y < (cfg.height : Int)) :
    (x.toNat + y.toNat * cfg.width) / 8 < cfg.width * cfg.height / 8 ∧
    ∀ j, j ≠ (x.toNat + y.toNat * cfg.width) / 8 →
      (drawAbsolutePixel cfg fb x y mono).getD j 0 = fb.getD j 0 := by
  have hxn : x.toNat < cfg.width := by omega
  have hyn : y.toNat < cfg.height := by omega
  have hlin : x.toNat + y.toNat * cfg.width < cfg.width * cfg.height := by
    calc x.toNat + y.toNat * cfg.width
        < cfg.width + y.toNat * cfg.width := by omega
      _ = (y.toNat + 1) * cfg.width := by ring
      _ ≤ cfg.height * cfg.width := Nat.mul_le_mul_right _ (by omega)
      _ = cfg.width * cfg.height := Nat.mul_comm _ _
  have hdvd : 8 ∣ cfg.width * cfg.height := Nat.dvd_of_mod_eq_zero h8
  have hdiv : (x.toNat + y.toNat * cfg.width) / 8 < cfg.width * cfg.height / 8 :=
    Nat.div_lt_div_of_lt_of_dvd hdvd hlin
  have hmod : ((x.toNat + y.toNat * cfg.width) / 8) % 65536 =
      (x.toNat + y.toNat * cfg.width) / 8 := by
    have h16 : cfg.width * cfg.height / 8 ≤ 65536 := by omega
    exact Nat.mod_eq_of_lt (by omega)
  refine ⟨hdiv, ?_⟩
  intro j hj
  have hguard : ¬(x < 0 ∨ (cfg.width : Int) ≤ x ∨ y < 0 ∨ (cfg.height : Int) ≤ y) := by
    omega
  by_cases hc : mono ≠ 0 <;>
    simp [drawAbsolutePixel, hguard, hc, hmod,
      List.getElem?_set_ne (Ne.symm hj)]

/-- C10: for every coordinate pair and color, the e-paper panel's
`drawPixel` on a present framebuffer of `width*height/8` bytes (the
panel geometry makes `width*height` a multiple of 8 and small enough
that the `uint16_t` byte index cannot truncate) reports the pixel
handled, writes only within bounds at index `(x + y*width)/8` — leaving
every other byte unchanged — and writes only when `0 ≤ x < width` and
`0 ≤ y < height`; for out-of-range coordinates the framebuffer is
returned completely unchanged while the call still reports handled. -/
theorem c10_epd_drawPixel_safety (cfg : EPDPixCfg) (fb : List Nat)
    (x y : Int) (color : Nat)
    (h8 : cfg.width * cfg.height % 8 = 0)
    (hsz : cfg.width * cfg.height ≤ 524288)
    (hfb : fb.length = cfg.width * cfg.height / 8) :
    (EPD_drawPixel cfg fb true x y color).2 = true ∧
    ((0 ≤ x ∧ x < (cfg.width : Int) ∧ 0 ≤ y ∧ y < (cfg.height : Int)) →
      (x.toNat + y.toNat * cfg.width) / 8 < fb.length ∧
      ∀ j, j ≠ (x.toNat + y.toNat * cfg.width) / 8 →
        (EPD_drawPixel cfg fb true x y color).1.getD j 0 = fb.getD j 0) ∧
    (¬(0 ≤ x ∧ x < (cfg.width : Int) ∧ 0 ≤ y ∧ y < (cfg.height : Int)) →
      (EPD_drawPixel cfg fb true x y color).1 = fb) := by
  refine ⟨by simp [EPD_drawPixel], ?_, ?_⟩
  · rintro ⟨hx0, hxw, hy0, hyh⟩
    have hmain := drawAbsolutePixel_in_range cfg fb x y
      (EPD_mono cfg color) h8 hsz hx0 hxw hy0 hyh
    refine ⟨hfb ▸ hmain.1, ?_⟩
    intro j hj
    have := hmain.2 j hj
    simpa [EPD_drawPixel, EPD_mono] using this
  · intro hout
    have hguard : x < 0 ∨ (cfg.width : Int) ≤ x ∨ y < 0 ∨ (cfg.height : Int) ≤ y := by
      omega
    simp [EPD_drawPixel, drawAbsolutePixel, hguard]

set_option maxRecDepth 8192 in
/-- C10 witness: the safety property applied to a concrete 128×64
panel, an all-zero 1024-byte framebuffer and the pixel (5, 3). -/
theorem c10_epd_drawPixel_safety_witness :
    (128 * 64 % 8 = 0 ∧ 128 * 64 ≤ 524288 ∧
      (List.replicate 1024 0).length = 128 * 64 / 8) ∧
    ((EPD_drawPixel ⟨128, 64, false⟩ (List.replicate 1024 0) true 5 3 1).2 = true ∧
      ((0 ≤ (5 : Int) ∧ (5 : Int) < ((128 : Nat) : Int) ∧ 0 ≤ (3 : Int) ∧
          (3 : Int) < ((64 : Nat) : Int)) →
        ((5 : Int).toNat + (3 : Int).toNat * 128) / 8 <
            (List.replicate (α := Nat) 1024 0).length ∧
        ∀ j, j ≠ ((5 : Int).toNat + (3 : Int).toNat * 128) / 8 →
          (EPD_drawPixel ⟨128, 64, false⟩ (List.replicate 1024 0) true 5 3 1).1.getD j 0 =
            (List.replicate (α := Nat) 1024 0).getD j 0) ∧
      (¬(0 ≤ (5 : Int) ∧ (5 : Int) < ((128 : Nat) : Int) ∧ 0 ≤ (3 : Int) ∧
          (3 : Int) < ((64 : Nat) : Int)) →
        (EPD_drawPixel ⟨128, 64, false⟩ (List.replicate 1024 0) true 5 3 1).1 =
          List.replicate 1024 0)) :=
  ⟨⟨by decide, by decide, by simp⟩,
    c10_epd_drawPixel_safety ⟨128, 64, false⟩ (List.replicate 1024 0) 5 3 1
      (by decide) (by decide) (by simp)⟩

end UDisp
